import Mathlib

/-!
Verification of the presubmit CL-sender core (`clssender.go`).

The Go source drives an abstract CI workflow for batches of related
change lists (CLs).  We embed it shallowly:

* `CL` models a `gerrit.Change` as seen by this file (reference string,
  owner email, presubmit directive).
* The external `gerrit.ParseRefString` collaborator becomes an explicit
  parameter `parse : String → Option (Nat × Nat)` (change number,
  patchset number); a parse error is `Option.none`.
* The `workflow` interface becomes a structure of pure responder
  functions `Workflow ε`, where `ε` stands for Go's `error` values.
* The dispatcher `sendCLsToPresubmitTest` returns a `StepResult`:
  the ordered trace of workflow calls it performed, the errors it
  logged to stderr, the number of CLs sent, and the fatal error (the
  Go function's return value).
-/

namespace Presubmit

/-- The author-declared presubmit directive of a CL
(`gerrit.PresubmitTestType`): `none` requests skipping presubmit
tests, `all` is the default. -/
inductive PresubmitTestType where
  | none
  | all
deriving DecidableEq, Repr

/-- One change-list entry (`gerrit.Change`), restricted to the fields
`clssender.go` reads: `Reference()`, `OwnerEmail()`, `PresubmitTest`. -/
structure CL where
  reference : String
  ownerEmail : String
  presubmitTest : PresubmitTestType
deriving DecidableEq, Repr

/-- `isTrustedContributor` from the source: trusted iff the email ends
with the literal suffix `"@google.com"` (Go `strings.HasSuffix`,
modelled character-wise on the string's data). -/
def isTrustedContributor (emailAddress : String) : Bool :=
  List.isSuffixOf "@google.com".data emailAddress.data

/-- `formatCLString` from the source: `fmt.Sprintf("%d/%d", cl, ps)`. -/
def formatCLString (clNumber : Nat) (patchsetNumber : Nat) : String :=
  toString clNumber ++ "/" ++ toString patchsetNumber

/-- `multiPartCLInfo` from the source.  The Go `map[clNumber]patchset`
is modelled as an association list updated in input order (last write
wins), which is deterministic and preserves `len`. -/
structure multiPartCLInfo where
  clMap : List (Nat × Nat)
  clString : String
  skipPresubmitTest : Bool
  hasTrustedOwner : Bool
  refs : List String
deriving DecidableEq, Repr

/-- The Go zero value `multiPartCLInfo{}`: empty map, empty string,
both booleans false, no refs. -/
def mpZero : multiPartCLInfo :=
  { clMap := [], clString := "", skipPresubmitTest := false,
    hasTrustedOwner := false, refs := [] }

/-- Go map assignment `m[k] = v` on the association-list model:
overwrite the entry for `k` if present, else append `(k, v)`. -/
def upsert (m : List (Nat × Nat)) (k v : Nat) : List (Nat × Nat) :=
  if m.any (fun p => p.1 == k) then
    m.map (fun p => if p.1 = k then (k, v) else p)
  else
    m ++ [(k, v)]

/-- The loop body of `combineCLList`, processing the remaining records.
Accumulates the `multiPartCLInfo` under construction and the
`clStrings` slice; returns `Option.none` exactly when some record's
reference fails to parse (the Go loop's early `return
multiPartCLInfo{}`). -/
def combineLoop (parse : String → Option (Nat × Nat)) :
    List CL → multiPartCLInfo → List String →
    Option (multiPartCLInfo × List String)
  | [], result, clStrings => some (result, clStrings)
  | curCL :: rest, result, clStrings =>
    match parse curCL.reference with
    | Option.none => Option.none
    | some (cl, ps) =>
      let result :=
        if curCL.presubmitTest = PresubmitTestType.none then
          { result with skipPresubmitTest := true }
        else result
      let result :=
        if !(isTrustedContributor curCL.ownerEmail) then
          { result with hasTrustedOwner := false }
        else result
      combineLoop parse rest
        { result with
            clMap := upsert result.clMap cl ps,
            refs := result.refs ++ [curCL.reference] }
        (clStrings ++ [formatCLString cl ps])

/-- The accumulator `combineCLList` starts from: the zero value after
`result.hasTrustedOwner = true` and `result.clMap = map{}`. -/
def initAcc : multiPartCLInfo :=
  { clMap := [], clString := "", skipPresubmitTest := false,
    hasTrustedOwner := true, refs := [] }

/-- `combineCLList` from the source: combine the individual CLs into a
single `multiPartCLInfo`.  Starts from `initAcc`; on any parse
failure returns the zero value `multiPartCLInfo{}`. -/
def combineCLList (parse : String → Option (Nat × Nat))
    (curCLList : List CL) : multiPartCLInfo :=
  match combineLoop parse curCLList initAcc [] with
  | Option.none => mpZero
  | some (result, clStrings) =>
    { result with clString := String.intercalate ", " clStrings }

/-- The abstract CI workflow (the Go `workflow` interface), as pure
responder functions.  `ε` models Go `error` values;
`removeOutdatedBuilds` returns a slice whose elements may be nil
(`Option.none`). -/
structure Workflow (ε : Type) where
  listTestsToRun : List String
  removeOutdatedBuilds : List (Nat × Nat) → List (Option ε)
  addPresubmitTestBuild : List CL → List String → Option ε
  postResults : String → List String → Bool → Option ε

/-- One observable workflow-port call, with its arguments. -/
inductive Call where
  | listTests
  | removeOutdated (validCLs : List (Nat × Nat))
  | addBuild (cls : List CL) (testNames : List String)
  | post (message : String) (clRefs : List String) (verified : Bool)
deriving DecidableEq, Repr

/-- Recognizes a `listTestsToRun` call in a trace. -/
def isListTestsCall : Call → Bool
  | Call.listTests => true
  | _ => false

/-- Recognizes a `postResults` call in a trace. -/
def isPostCall : Call → Bool
  | Call.post _ _ _ => true
  | _ => false

/-- The message posted on the author-requested skip path. -/
def skipMsg : String := "Presubmit tests skipped.\n"

/-- The message posted when no tests are found. -/
def noTestsMsg : String := "No tests found.\n"

/-- The message posted for an untrusted owner. -/
def untrustedMsg : String := "Tell Freenode#fuchsia to kick the presubmit tests.\n"

/-- The outcome of processing one batch: the workflow calls made (in
order), the errors logged to stderr, how much `clsSent` grew, and the
fatal error which aborts the whole run (`Option.none` = keep going). -/
structure StepResult (ε : Type) where
  calls : List Call
  logs : List ε
  sentDelta : Nat
  fatal : Option ε
deriving DecidableEq, Repr

/-- One iteration of the loop in `sendCLsToPresubmitTest`, for the
batch `curCLList`, mirroring the source's branch order: empty set →
skip; `skipPresubmitTest` → post and continue (fatal on post error);
query tests; no tests → post (fatal on post error); untrusted → post
(fatal on post error); otherwise remove outdated builds (log the
non-nil errors), then `addPresubmitTestBuild` (log on failure,
increment `clsSent` by `len(curCLList)` on success). -/
def processOne (w : Workflow ε) (parse : String → Option (Nat × Nat))
    (curCLList : List CL) : StepResult ε :=
  let cls := combineCLList parse curCLList
  if cls.clMap.length = 0 then
    { calls := [], logs := [], sentDelta := 0, fatal := Option.none }
  else if cls.skipPresubmitTest then
    { calls := [Call.post skipMsg cls.refs true], logs := [],
      sentDelta := 0, fatal := w.postResults skipMsg cls.refs true }
  else
    let tests := w.listTestsToRun
    if tests.length = 0 then
      { calls := [Call.listTests, Call.post noTestsMsg cls.refs true],
        logs := [], sentDelta := 0,
        fatal := w.postResults noTestsMsg cls.refs true }
    else if !cls.hasTrustedOwner then
      { calls := [Call.listTests, Call.post untrustedMsg cls.refs false],
        logs := [], sentDelta := 0,
        fatal := w.postResults untrustedMsg cls.refs false }
    else
      let remErrs := w.removeOutdatedBuilds cls.clMap
      match w.addPresubmitTestBuild curCLList tests with
      | some e =>
        { calls := [Call.listTests, Call.removeOutdated cls.clMap,
                    Call.addBuild curCLList tests],
          logs := remErrs.filterMap id ++ [e],
          sentDelta := 0, fatal := Option.none }
      | Option.none =>
        { calls := [Call.listTests, Call.removeOutdated cls.clMap,
                    Call.addBuild curCLList tests],
          logs := remErrs.filterMap id,
          sentDelta := curCLList.length, fatal := Option.none }

/-- `sendCLsToPresubmitTest` from the source: process the batches in
order, aborting the run with the error of the first failing
`postResults` call; `fatal = Option.none` models the final
`return nil`. -/
def sendCLsToPresubmitTest (w : Workflow ε)
    (parse : String → Option (Nat × Nat)) :
    List (List CL) → StepResult ε
  | [] => { calls := [], logs := [], sentDelta := 0, fatal := Option.none }
  | b :: rest =>
    let r := processOne w parse b
    match r.fatal with
    | some e =>
      { calls := r.calls, logs := r.logs, sentDelta := r.sentDelta,
        fatal := some e }
    | Option.none =>
      let rs := sendCLsToPresubmitTest w parse rest
      { calls := r.calls ++ rs.calls, logs := r.logs ++ rs.logs,
        sentDelta := r.sentDelta + rs.sentDelta, fatal := rs.fatal }

/-- The label contributed by one record to `clStrings`; meaningful when
its reference parses. -/
def labelOf (parse : String → Option (Nat × Nat)) (r : CL) : String :=
  match parse r.reference with
  | some (cl, ps) => formatCLString cl ps
  | Option.none => ""

/-- The effect of one successfully-parsed record on the accumulated
`multiPartCLInfo` (the loop body of `combineCLList` minus the
`clStrings` slice). -/
def stepAcc (parse : String → Option (Nat × Nat))
    (acc : multiPartCLInfo) (r : CL) : multiPartCLInfo :=
  match parse r.reference with
  | some (cl, ps) =>
    let acc :=
      if r.presubmitTest = PresubmitTestType.none then
        { acc with skipPresubmitTest := true }
      else acc
    let acc :=
      if !(isTrustedContributor r.ownerEmail) then
        { acc with hasTrustedOwner := false }
      else acc
    { acc with
        clMap := upsert acc.clMap cl ps,
        refs := acc.refs ++ [r.reference] }
  | Option.none => acc

/-- The possible outcomes of the decision cascade for one group. -/
inductive Outcome where
  | skipEmpty
  | skipByAuthorRequest
  | skipNoTests
  | skipUntrusted
  | proceed
deriving DecidableEq, Repr

/-- A decision: the outcome, the report message posted (if any) and the
`verified` flag passed to `postResults` (if any). -/
structure Decision where
  outcome : Outcome
  message : Option String
  verified : Option Bool
deriving DecidableEq, Repr

/-- The decision cascade inlined in `sendCLsToPresubmitTest`
(lines 48–81 of the source), as a function of the combined group and
the queried test list, in the source's branch order. -/
def decideGroup (cls : multiPartCLInfo) (tests : List String) : Decision :=
  if cls.clMap.length = 0 then
    { outcome := Outcome.skipEmpty, message := Option.none,
      verified := Option.none }
  else if cls.skipPresubmitTest then
    { outcome := Outcome.skipByAuthorRequest, message := some skipMsg,
      verified := some true }
  else if tests.length = 0 then
    { outcome := Outcome.skipNoTests, message := some noTestsMsg,
      verified := some true }
  else if !cls.hasTrustedOwner then
    { outcome := Outcome.skipUntrusted, message := some untrustedMsg,
      verified := some false }
  else
    { outcome := Outcome.proceed, message := Option.none,
      verified := Option.none }

/-! ### Concrete instances used to exercise the theorems -/

/-- A tiny concrete reference parser covering three well-formed
references; everything else is malformed. -/
def parseRef0 : String → Option (Nat × Nat) := fun s =>
  if s = "ref/1/5" then some (1, 5)
  else if s = "ref/2/7" then some (2, 7)
  else if s = "ref/3/2" then some (3, 2)
  else Option.none

/-- Change 1 patchset 5, trusted owner, default presubmit directive. -/
def clA : CL :=
  { reference := "ref/1/5", ownerEmail := "a@google.com",
    presubmitTest := PresubmitTestType.all }

/-- Change 2 patchset 7, trusted owner, default presubmit directive. -/
def clB : CL :=
  { reference := "ref/2/7", ownerEmail := "b@google.com",
    presubmitTest := PresubmitTestType.all }

/-- A CL whose author requested skipping presubmit tests. -/
def clSkip : CL :=
  { reference := "ref/1/5", ownerEmail := "a@google.com",
    presubmitTest := PresubmitTestType.none }

/-- A CL with a malformed reference string. -/
def clBad : CL :=
  { reference := "bogus", ownerEmail := "a@google.com",
    presubmitTest := PresubmitTestType.all }

/-- A CL owned by an external (untrusted) contributor. -/
def clExt : CL :=
  { reference := "ref/3/2", ownerEmail := "c@evil.com",
    presubmitTest := PresubmitTestType.all }

/-- A workflow where every operation succeeds but stale-build removal
reports two failures. -/
def wOk : Workflow String :=
  { listTestsToRun := ["t1"],
    removeOutdatedBuilds := fun _ => [some "rm1", some "rm2"],
    addPresubmitTestBuild := fun _ _ => Option.none,
    postResults := fun _ _ _ => Option.none }

/-- A workflow whose `addPresubmitTestBuild` always fails. -/
def wAddFail : Workflow String :=
  { listTestsToRun := ["t1"],
    removeOutdatedBuilds := fun _ => [],
    addPresubmitTestBuild := fun _ _ => some "addfail",
    postResults := fun _ _ _ => Option.none }

/-- A workflow whose `postResults` always fails. -/
def wPostFail : Workflow String :=
  { listTestsToRun := ["t1"],
    removeOutdatedBuilds := fun _ => [],
    addPresubmitTestBuild := fun _ _ => Option.none,
    postResults := fun _ _ _ => some "postfail" }

/-! ### Properties of the grouper loop -/

lemma combineLoop_ok (parse : String → Option (Nat × Nat)) :
    ∀ (l : List CL) (acc : multiPartCLInfo) (strs : List String),
      (∀ r ∈ l, (parse r.reference).isSome) →
      combineLoop parse l acc strs
        = some (l.foldl (stepAcc parse) acc, strs ++ l.map (labelOf parse)) := by
  intro l
  induction l with
  | nil => intro acc strs _; simp [combineLoop]
  | cons r rest ih =>
    intro acc strs h
    obtain ⟨v, hv⟩ := Option.isSome_iff_exists.mp (h r (List.mem_cons_self r rest))
    obtain ⟨cl, ps⟩ := v
    have hrest : ∀ x ∈ rest, (parse x.reference).isSome :=
      fun x hx => h x (List.mem_cons_of_mem r hx)
    simp only [combineLoop, hv, ih _ _ hrest, List.foldl_cons, List.map_cons,
      stepAcc, labelOf]
    simp

lemma combineLoop_fail (parse : String → Option (Nat × Nat)) :
    ∀ (l : List CL) (acc : multiPartCLInfo) (strs : List String),
      (∃ r ∈ l, parse r.reference = Option.none) →
      combineLoop parse l acc strs = Option.none := by
  intro l
  induction l with
  | nil => intro _ _ h; simp at h
  | cons r rest ih =>
    intro acc strs h
    cases hv : parse r.reference with
    | none => simp [combineLoop, hv]
    | some v =>
      obtain ⟨cl, ps⟩ := v
      obtain ⟨x, hx, hxnone⟩ := h
      rcases List.mem_cons.mp hx with hxr | hxrest
      · rw [hxr] at hxnone; rw [hxnone] at hv; cases hv
      · simp only [combineLoop, hv]
        exact ih _ _ ⟨x, hxrest, hxnone⟩

lemma upsert_ne_nil (m : List (Nat × Nat)) (k v : Nat) :
    upsert m k v ≠ [] := by
  unfold upsert
  split
  · rename_i h
    cases m with
    | nil => simp at h
    | cons p rest => simp
  · simp

lemma stepAcc_skip (parse : String → Option (Nat × Nat))
    (acc : multiPartCLInfo) (r : CL) (h : (parse r.reference).isSome) :
    (stepAcc parse acc r).skipPresubmitTest
      = (acc.skipPresubmitTest || (r.presubmitTest == PresubmitTestType.none)) := by
  obtain ⟨v, hv⟩ := Option.isSome_iff_exists.mp h
  obtain ⟨cl, ps⟩ := v
  simp only [stepAcc, hv]
  by_cases hs : r.presubmitTest = PresubmitTestType.none <;>
    cases ht : isTrustedContributor r.ownerEmail <;> simp [hs, ht]

lemma stepAcc_trusted (parse : String → Option (Nat × Nat))
    (acc : multiPartCLInfo) (r : CL) (h : (parse r.reference).isSome) :
    (stepAcc parse acc r).hasTrustedOwner
      = (acc.hasTrustedOwner && isTrustedContributor r.ownerEmail) := by
  obtain ⟨v, hv⟩ := Option.isSome_iff_exists.mp h
  obtain ⟨cl, ps⟩ := v
  simp only [stepAcc, hv]
  by_cases hs : r.presubmitTest = PresubmitTestType.none <;>
    cases ht : isTrustedContributor r.ownerEmail <;> simp [hs, ht]

lemma stepAcc_refs (parse : String → Option (Nat × Nat))
    (acc : multiPartCLInfo) (r : CL) (h : (parse r.reference).isSome) :
    (stepAcc parse acc r).refs = acc.refs ++ [r.reference] := by
  obtain ⟨v, hv⟩ := Option.isSome_iff_exists.mp h
  obtain ⟨cl, ps⟩ := v
  simp only [stepAcc, hv]
  by_cases hs : r.presubmitTest = PresubmitTestType.none <;>
    cases ht : isTrustedContributor r.ownerEmail <;> simp [hs, ht]

lemma stepAcc_clMap_ne_nil (parse : String → Option (Nat × Nat))
    (acc : multiPartCLInfo) (r : CL) (h : (parse r.reference).isSome) :
    (stepAcc parse acc r).clMap ≠ [] := by
  obtain ⟨v, hv⟩ := Option.isSome_iff_exists.mp h
  obtain ⟨cl, ps⟩ := v
  simp only [stepAcc, hv]
  exact upsert_ne_nil _ _ _

lemma foldl_skip (parse : String → Option (Nat × Nat)) :
    ∀ (l : List CL) (acc : multiPartCLInfo),
      (∀ r ∈ l, (parse r.reference).isSome) →
      (l.foldl (stepAcc parse) acc).skipPresubmitTest
        = (acc.skipPresubmitTest
            || l.any (fun r => r.presubmitTest == PresubmitTestType.none)) := by
  intro l
  induction l with
  | nil => intro acc _; simp
  | cons r rest ih =>
    intro acc h
    have hr := h r (List.mem_cons_self r rest)
    have hrest : ∀ x ∈ rest, (parse x.reference).isSome :=
      fun x hx => h x (List.mem_cons_of_mem r hx)
    simp only [List.foldl_cons, List.any_cons, ih _ hrest,
      stepAcc_skip parse acc r hr, Bool.or_assoc]

lemma foldl_trusted (parse : String → Option (Nat × Nat)) :
    ∀ (l : List CL) (acc : multiPartCLInfo),
      (∀ r ∈ l, (parse r.reference).isSome) →
      (l.foldl (stepAcc parse) acc).hasTrustedOwner
        = (acc.hasTrustedOwner
            && l.all (fun r => isTrustedContributor r.ownerEmail)) := by
  intro l
  induction l with
  | nil => intro acc _; simp
  | cons r rest ih =>
    intro acc h
    have hr := h r (List.mem_cons_self r rest)
    have hrest : ∀ x ∈ rest, (parse x.reference).isSome :=
      fun x hx => h x (List.mem_cons_of_mem r hx)
    simp only [List.foldl_cons, List.all_cons, ih _ hrest,
      stepAcc_trusted parse acc r hr, Bool.and_assoc]

lemma foldl_refs (parse : String → Option (Nat × Nat)) :
    ∀ (l : List CL) (acc : multiPartCLInfo),
      (∀ r ∈ l, (parse r.reference).isSome) →
      (l.foldl (stepAcc parse) acc).refs
        = acc.refs ++ l.map (fun r => r.reference) := by
  intro l
  induction l with
  | nil => intro acc _; simp
  | cons r rest ih =>
    intro acc h
    have hr := h r (List.mem_cons_self r rest)
    have hrest : ∀ x ∈ rest, (parse x.reference).isSome :=
      fun x hx => h x (List.mem_cons_of_mem r hx)
    simp [List.foldl_cons, ih _ hrest, stepAcc_refs parse acc r hr]

lemma foldl_clMap_ne_nil (parse : String → Option (Nat × Nat)) :
    ∀ (l : List CL) (acc : multiPartCLInfo),
      (∀ r ∈ l, (parse r.reference).isSome) →
      (l ≠ [] ∨ acc.clMap ≠ []) →
      (l.foldl (stepAcc parse) acc).clMap ≠ [] := by
  intro l
  induction l with
  | nil =>
    intro acc _ h
    rcases h with h | h
    · exact absurd rfl h
    · simpa using h
  | cons r rest ih =>
    intro acc h _
    have hr := h r (List.mem_cons_self r rest)
    have hrest : ∀ x ∈ rest, (parse x.reference).isSome :=
      fun x hx => h x (List.mem_cons_of_mem r hx)
    rw [List.foldl_cons]
    exact ih _ hrest (Or.inr (stepAcc_clMap_ne_nil parse acc r hr))

/-! ### Properties of `combineCLList` -/

lemma combineCLList_eq_of_ok (parse : String → Option (Nat × Nat))
    (records : List CL) (h : ∀ r ∈ records, (parse r.reference).isSome) :
    combineCLList parse records
      = { records.foldl (stepAcc parse) initAcc with
          clString :=
            String.intercalate ", " (records.map (labelOf parse)) } := by
  unfold combineCLList
  rw [combineLoop_ok parse records initAcc [] h]
  simp

lemma combineCLList_skip (parse : String → Option (Nat × Nat))
    (records : List CL) (h : ∀ r ∈ records, (parse r.reference).isSome) :
    (combineCLList parse records).skipPresubmitTest
      = records.any (fun r => r.presubmitTest == PresubmitTestType.none) := by
  rw [combineCLList_eq_of_ok parse records h]
  have := foldl_skip parse records initAcc h
  simpa [initAcc] using this

lemma combineCLList_trusted (parse : String → Option (Nat × Nat))
    (records : List CL) (h : ∀ r ∈ records, (parse r.reference).isSome) :
    (combineCLList parse records).hasTrustedOwner
      = records.all (fun r => isTrustedContributor r.ownerEmail) := by
  rw [combineCLList_eq_of_ok parse records h]
  have := foldl_trusted parse records initAcc h
  simpa [initAcc] using this

lemma combineCLList_clString (parse : String → Option (Nat × Nat))
    (records : List CL) (h : ∀ r ∈ records, (parse r.reference).isSome) :
    (combineCLList parse records).clString
      = String.intercalate ", " (records.map (labelOf parse)) := by
  rw [combineCLList_eq_of_ok parse records h]

lemma combineCLList_refs (parse : String → Option (Nat × Nat))
    (records : List CL) (h : ∀ r ∈ records, (parse r.reference).isSome) :
    (combineCLList parse records).refs
      = records.map (fun r => r.reference) := by
  rw [combineCLList_eq_of_ok parse records h]
  have := foldl_refs parse records initAcc h
  simpa [initAcc] using this

lemma combineCLList_clMap_ne_nil (parse : String → Option (Nat × Nat))
    (records : List CL) (h : ∀ r ∈ records, (parse r.reference).isSome)
    (hne : records ≠ []) :
    (combineCLList parse records).clMap ≠ [] := by
  rw [combineCLList_eq_of_ok parse records h]
  simpa using foldl_clMap_ne_nil parse records initAcc h (Or.inl hne)

lemma combineCLList_of_fail (parse : String → Option (Nat × Nat))
    (records : List CL) (r : CL) (hr : r ∈ records)
    (hp : parse r.reference = Option.none) :
    combineCLList parse records = mpZero := by
  unfold combineCLList
  rw [combineLoop_fail parse records _ [] ⟨r, hr, hp⟩]

lemma combineCLList_nil (parse : String → Option (Nat × Nat)) :
    combineCLList parse [] = initAcc := by
  rfl

/-! ### Properties of the dispatcher -/

lemma processOne_of_clMap_nil (w : Workflow ε)
    (parse : String → Option (Nat × Nat)) (b : List CL)
    (h : (combineCLList parse b).clMap = []) :
    processOne w parse b
      = { calls := [], logs := [], sentDelta := 0, fatal := Option.none } := by
  unfold processOne
  simp [h]

lemma processOne_skipPath (w : Workflow ε)
    (parse : String → Option (Nat × Nat)) (b : List CL)
    (h1 : (combineCLList parse b).clMap ≠ [])
    (h2 : (combineCLList parse b).skipPresubmitTest = true) :
    processOne w parse b
      = { calls := [Call.post skipMsg (combineCLList parse b).refs true],
          logs := [], sentDelta := 0,
          fatal := w.postResults skipMsg (combineCLList parse b).refs true } := by
  unfold processOne
  simp [List.length_eq_zero, h1, h2]

lemma processOne_noTestsPath (w : Workflow ε)
    (parse : String → Option (Nat × Nat)) (b : List CL)
    (h1 : (combineCLList parse b).clMap ≠ [])
    (h2 : (combineCLList parse b).skipPresubmitTest = false)
    (h3 : w.listTestsToRun = []) :
    processOne w parse b
      = { calls := [Call.listTests,
                    Call.post noTestsMsg (combineCLList parse b).refs true],
          logs := [], sentDelta := 0,
          fatal := w.postResults noTestsMsg (combineCLList parse b).refs true } := by
  unfold processOne
  simp [List.length_eq_zero, h1, h2, h3]

lemma processOne_untrustedPath (w : Workflow ε)
    (parse : String → Option (Nat × Nat)) (b : List CL)
    (h1 : (combineCLList parse b).clMap ≠ [])
    (h2 : (combineCLList parse b).skipPresubmitTest = false)
    (h3 : w.listTestsToRun ≠ [])
    (h4 : (combineCLList parse b).hasTrustedOwner = false) :
    processOne w parse b
      = { calls := [Call.listTests,
                    Call.post untrustedMsg (combineCLList parse b).refs false],
          logs := [], sentDelta := 0,
          fatal := w.postResults untrustedMsg (combineCLList parse b).refs false } := by
  unfold processOne
  simp [List.length_eq_zero, h1, h2, h3, h4]

lemma processOne_proceedPath (w : Workflow ε)
    (parse : String → Option (Nat × Nat)) (b : List CL)
    (h1 : (combineCLList parse b).clMap ≠ [])
    (h2 : (combineCLList parse b).skipPresubmitTest = false)
    (h3 : w.listTestsToRun ≠ [])
    (h4 : (combineCLList parse b).hasTrustedOwner = true) :
    processOne w parse b
      = { calls := [Call.listTests,
                    Call.removeOutdated (combineCLList parse b).clMap,
                    Call.addBuild b w.listTestsToRun],
          logs := (w.removeOutdatedBuilds (combineCLList parse b).clMap).filterMap id
                    ++ (match w.addPresubmitTestBuild b w.listTestsToRun with
                        | some e => [e]
                        | Option.none => []),
          sentDelta := (match w.addPresubmitTestBuild b w.listTestsToRun with
                        | some _ => 0
                        | Option.none => b.length),
          fatal := Option.none } := by
  unfold processOne
  cases hadd : w.addPresubmitTestBuild b w.listTestsToRun <;>
    simp [List.length_eq_zero, h1, h2, h3, h4, hadd]

lemma processOne_listTests_count (w : Workflow ε)
    (parse : String → Option (Nat × Nat)) (b : List CL) :
    ((processOne w parse b).calls.countP isListTestsCall)
      = (if (combineCLList parse b).clMap ≠ []
            ∧ (combineCLList parse b).skipPresubmitTest = false
         then 1 else 0) := by
  by_cases h1 : (combineCLList parse b).clMap = []
  · rw [processOne_of_clMap_nil w parse b h1]
    simp [h1]
  · by_cases h2 : (combineCLList parse b).skipPresubmitTest
    · rw [processOne_skipPath w parse b h1 h2]
      simp [h1, h2, List.countP_cons, isListTestsCall]
    · have h2' : (combineCLList parse b).skipPresubmitTest = false :=
        Bool.not_eq_true _ ▸ Bool.eq_false_iff.mpr h2
      by_cases h3 : w.listTestsToRun = []
      · rw [processOne_noTestsPath w parse b h1 h2' h3]
        simp [h1, h2', List.countP_cons, isListTestsCall]
      · by_cases h4 : (combineCLList parse b).hasTrustedOwner
        · rw [processOne_proceedPath w parse b h1 h2' h3 h4]
          simp [h1, h2', List.countP_cons, isListTestsCall]
        · have h4' : (combineCLList parse b).hasTrustedOwner = false :=
            Bool.eq_false_iff.mpr h4
          rw [processOne_untrustedPath w parse b h1 h2' h3 h4']
          simp [h1, h2', List.countP_cons, isListTestsCall]

lemma sendCLsToPresubmitTest_cons_fatal (w : Workflow ε)
    (parse : String → Option (Nat × Nat)) (b : List CL)
    (rest : List (List CL)) (e : ε)
    (h : (processOne w parse b).fatal = some e) :
    sendCLsToPresubmitTest w parse (b :: rest)
      = { calls := (processOne w parse b).calls,
          logs := (processOne w parse b).logs,
          sentDelta := (processOne w parse b).sentDelta,
          fatal := some e } := by
  unfold sendCLsToPresubmitTest
  simp [h]

lemma sendCLsToPresubmitTest_cons_ok (w : Workflow ε)
    (parse : String → Option (Nat × Nat)) (b : List CL)
    (rest : List (List CL))
    (h : (processOne w parse b).fatal = Option.none) :
    sendCLsToPresubmitTest w parse (b :: rest)
      = { calls := (processOne w parse b).calls
                    ++ (sendCLsToPresubmitTest w parse rest).calls,
          logs := (processOne w parse b).logs
                    ++ (sendCLsToPresubmitTest w parse rest).logs,
          sentDelta := (processOne w parse b).sentDelta
                    + (sendCLsToPresubmitTest w parse rest).sentDelta,
          fatal := (sendCLsToPresubmitTest w parse rest).fatal } := by
  conv_lhs => unfold sendCLsToPresubmitTest
  simp [h]

lemma sendCLsToPresubmitTest_success (w : Workflow ε)
    (parse : String → Option (Nat × Nat)) :
    ∀ (batches : List (List CL)),
      (∀ b ∈ batches, (processOne w parse b).fatal = Option.none) →
      (sendCLsToPresubmitTest w parse batches).fatal = Option.none := by
  intro batches
  induction batches with
  | nil => intro _; rfl
  | cons b rest ih =>
    intro h
    rw [sendCLsToPresubmitTest_cons_ok w parse b rest
      (h b (List.mem_cons_self b rest))]
    exact ih (fun x hx => h x (List.mem_cons_of_mem b hx))

lemma run_fatal_decomp (w : Workflow ε)
    (parse : String → Option (Nat × Nat)) :
    ∀ (pre : List (List CL)) (b : List CL) (post : List (List CL)) (e : ε),
      (∀ x ∈ pre, (processOne w parse x).fatal = Option.none) →
      (processOne w parse b).fatal = some e →
      (sendCLsToPresubmitTest w parse (pre ++ b :: post)).fatal = some e
      ∧ (sendCLsToPresubmitTest w parse (pre ++ b :: post)).calls
          = (pre.map (fun x => (processOne w parse x).calls)).flatten
              ++ (processOne w parse b).calls := by
  intro pre
  induction pre with
  | nil =>
    intro b post e _ hb
    rw [List.nil_append, sendCLsToPresubmitTest_cons_fatal w parse b post e hb]
    simp
  | cons x xs ih =>
    intro b post e h hb
    have hx : (processOne w parse x).fatal = Option.none :=
      h x (List.mem_cons_self x xs)
    have hxs : ∀ y ∈ xs, (processOne w parse y).fatal = Option.none :=
      fun y hy => h y (List.mem_cons_of_mem x hy)
    have := ih b post e hxs hb
    rw [List.cons_append, sendCLsToPresubmitTest_cons_ok w parse x _ hx]
    simp [this.1, this.2]

lemma run_listTests_count (w : Workflow ε)
    (parse : String → Option (Nat × Nat)) :
    ∀ (batches : List (List CL)),
      (∀ b ∈ batches, (processOne w parse b).fatal = Option.none) →
      ((sendCLsToPresubmitTest w parse batches).calls.countP isListTestsCall)
        = batches.countP
            (fun b => !((combineCLList parse b).clMap.isEmpty)
                        && !((combineCLList parse b).skipPresubmitTest)) := by
  intro batches
  induction batches with
  | nil => intro _; rfl
  | cons b rest ih =>
    intro h
    rw [sendCLsToPresubmitTest_cons_ok w parse b rest
      (h b (List.mem_cons_self b rest))]
    have hone := processOne_listTests_count w parse b
    have hrest := ih (fun x hx => h x (List.mem_cons_of_mem b hx))
    simp only [List.countP_append, List.countP_cons, hone, hrest]
    by_cases h1 : (combineCLList parse b).clMap = [] <;>
      by_cases h2 : (combineCLList parse b).skipPresubmitTest <;>
        simp [h1, h2, Nat.add_comm]

/-! ### The claims -/

/-- C1: for every non-empty ChangeGroup whose members' references all
parse, the decision cascade produces exactly one Decision in fixed
priority order with first match winning: skip requested →
skip-by-author-request with verified = true (regardless of trust or
test availability); else empty test set → skip-no-tests with
verified = true; else not all trusted → skip-untrusted with
verified = false; else proceed. -/
theorem decisionEngine_priority (parse : String → Option (Nat × Nat))
    (records : List CL) (tests : List String)
    (hne : records ≠ [])
    (hp : ∀ r ∈ records, (parse r.reference).isSome) :
    ((combineCLList parse records).skipPresubmitTest = true →
      decideGroup (combineCLList parse records) tests
        = { outcome := Outcome.skipByAuthorRequest, message := some skipMsg,
            verified := some true })
  ∧ ((combineCLList parse records).skipPresubmitTest = false → tests = [] →
      decideGroup (combineCLList parse records) tests
        = { outcome := Outcome.skipNoTests, message := some noTestsMsg,
            verified := some true })
  ∧ ((combineCLList parse records).skipPresubmitTest = false → tests ≠ [] →
      (combineCLList parse records).hasTrustedOwner = false →
      decideGroup (combineCLList parse records) tests
        = { outcome := Outcome.skipUntrusted, message := some untrustedMsg,
            verified := some false })
  ∧ ((combineCLList parse records).skipPresubmitTest = false → tests ≠ [] →
      (combineCLList parse records).hasTrustedOwner = true →
      decideGroup (combineCLList parse records) tests
        = { outcome := Outcome.proceed, message := Option.none,
            verified := Option.none }) := by
  have hmap := combineCLList_clMap_ne_nil parse records hp hne
  refine ⟨fun h1 => ?_, fun h1 h2 => ?_, fun h1 h2 h3 => ?_, fun h1 h2 h3 => ?_⟩ <;>
    simp_all [decideGroup, List.length_eq_zero]

/-- Witness for C1: a single-member group requesting skip is decided
skip-by-author-request with verified = true even though tests exist. -/
theorem decisionEngine_priority_witness :
    (([clSkip] : List CL) ≠ []
      ∧ (∀ r ∈ [clSkip], (parseRef0 r.reference).isSome)
      ∧ (combineCLList parseRef0 [clSkip]).skipPresubmitTest = true)
  ∧ decideGroup (combineCLList parseRef0 [clSkip]) ["t1"]
      = { outcome := Outcome.skipByAuthorRequest, message := some skipMsg,
          verified := some true } :=
  ⟨⟨by decide, by decide, by decide⟩,
   (decisionEngine_priority parseRef0 [clSkip] ["t1"] (by decide) (by decide)).1
     (by decide)⟩

/-- C2: for every record list whose references all parse, the combined
group's `skipPresubmitTest` is true iff some member declares the skip
directive, `hasTrustedOwner` is true iff every member's owner is
trusted, and the combined label joins the "change/patchset" strings
with ", " in input order — in particular `"1/5, 2/7"` for members
parsing to (1,5) and (2,7) in that order. -/
theorem combine_flags_and_label (parse : String → Option (Nat × Nat))
    (records : List CL)
    (hp : ∀ r ∈ records, (parse r.reference).isSome) :
    (combineCLList parse records).skipPresubmitTest
      = records.any (fun r => r.presubmitTest == PresubmitTestType.none)
  ∧ (combineCLList parse records).hasTrustedOwner
      = records.all (fun r => isTrustedContributor r.ownerEmail)
  ∧ (combineCLList parse records).clString
      = String.intercalate ", " (records.map (labelOf parse))
  ∧ (∀ r1 r2 : CL,
      parse r1.reference = some (1, 5) → parse r2.reference = some (2, 7) →
      (combineCLList parse [r1, r2]).clString = "1/5, 2/7") := by
  refine ⟨combineCLList_skip parse records hp,
    combineCLList_trusted parse records hp,
    combineCLList_clString parse records hp, ?_⟩
  intro r1 r2 h1 h2
  have hok : ∀ r ∈ [r1, r2], (parse r.reference).isSome := by
    intro r hr
    rcases List.mem_cons.mp hr with h | h
    · rw [h, h1]; rfl
    · rcases List.mem_cons.mp h with h | h
      · rw [h, h2]; rfl
      · simp at h
  rw [combineCLList_clString parse [r1, r2] hok]
  simp only [List.map_cons, List.map_nil, labelOf, h1, h2]
  decide

/-- Witness for C2: the two-member group (1,5), (2,7) with one skip
directive and one untrusted owner. -/
theorem combine_flags_and_label_witness :
    (∀ r ∈ [clSkip, clExt], (parseRef0 r.reference).isSome)
  ∧ ((combineCLList parseRef0 [clSkip, clExt]).skipPresubmitTest
      = ([clSkip, clExt].any (fun r => r.presubmitTest == PresubmitTestType.none))
    ∧ (combineCLList parseRef0 [clSkip, clExt]).hasTrustedOwner
      = ([clSkip, clExt].all (fun r => isTrustedContributor r.ownerEmail))
    ∧ (combineCLList parseRef0 [clSkip, clExt]).clString
      = String.intercalate ", " ([clSkip, clExt].map (labelOf parseRef0))
    ∧ (∀ r1 r2 : CL,
        parseRef0 r1.reference = some (1, 5) →
        parseRef0 r2.reference = some (2, 7) →
        (combineCLList parseRef0 [r1, r2]).clString = "1/5, 2/7")) :=
  ⟨by decide, combine_flags_and_label parseRef0 [clSkip, clExt] (by decide)⟩

/-- C3: if a `postResults` call made while processing batch k fails,
the run returns that same failure and the call trace stops with batch
k's calls (no batch after k is processed); if no `postResults` call
fails, the run returns success. -/
theorem postResults_failure_aborts_run (w : Workflow ε)
    (parse : String → Option (Nat × Nat))
    (pre : List (List CL)) (b : List CL) (post : List (List CL)) (e : ε)
    (h1 : ∀ x ∈ pre, (processOne w parse x).fatal = Option.none)
    (h2 : (processOne w parse b).fatal = some e) :
    ((sendCLsToPresubmitTest w parse (pre ++ b :: post)).fatal = some e
  ∧ (sendCLsToPresubmitTest w parse (pre ++ b :: post)).calls
      = (pre.map (fun x => (processOne w parse x).calls)).flatten
          ++ (processOne w parse b).calls)
  ∧ (∀ batches : List (List CL),
      (∀ x ∈ batches, (processOne w parse x).fatal = Option.none) →
      (sendCLsToPresubmitTest w parse batches).fatal = Option.none) :=
  ⟨run_fatal_decomp w parse pre b post e h1 h2,
   sendCLsToPresubmitTest_success w parse⟩

/-- Witness for C3: with a failing `postResults`, a 3-batch run whose
second batch posts results aborts with that failure after batch 2. -/
theorem postResults_failure_aborts_run_witness :
    ((∀ x ∈ [[clA, clB]], (processOne wPostFail parseRef0 x).fatal = Option.none)
      ∧ (processOne wPostFail parseRef0 [clSkip]).fatal = some "postfail")
  ∧ (sendCLsToPresubmitTest wPostFail parseRef0
        ([[clA, clB]] ++ [clSkip] :: [[clB]])).fatal = some "postfail" :=
  ⟨⟨by decide, by decide⟩,
   ((postResults_failure_aborts_run wPostFail parseRef0 [[clA, clB]] [clSkip]
      [[clB]] "postfail" (by decide) (by decide)).1).1⟩

/-- C4: a batch containing a record with an unparsable reference
collapses to the zero ChangeGroup (no partial result), the dispatcher
makes no workflow calls for it, and the run continues with the
remaining batches unchanged. -/
theorem malformed_ref_discards_batch (w : Workflow ε)
    (parse : String → Option (Nat × Nat))
    (records : List CL) (rest : List (List CL)) (r : CL)
    (hr : r ∈ records) (hp : parse r.reference = Option.none) :
    combineCLList parse records = mpZero
  ∧ processOne w parse records
      = { calls := [], logs := [], sentDelta := 0, fatal := Option.none }
  ∧ sendCLsToPresubmitTest w parse (records :: rest)
      = sendCLsToPresubmitTest w parse rest := by
  have hz := combineCLList_of_fail parse records r hr hp
  have hempty : (combineCLList parse records).clMap = [] := by rw [hz]; rfl
  have hproc := processOne_of_clMap_nil w parse records hempty
  refine ⟨hz, hproc, ?_⟩
  rw [sendCLsToPresubmitTest_cons_ok w parse records rest (by rw [hproc])]
  rw [hproc]
  simp

/-- Witness for C4: a batch with one good and one malformed reference
is dropped and the run equals the run on the remaining batch alone. -/
theorem malformed_ref_discards_batch_witness :
    (clBad ∈ [clA, clBad] ∧ parseRef0 clBad.reference = Option.none)
  ∧ (combineCLList parseRef0 [clA, clBad] = mpZero
    ∧ processOne wOk parseRef0 [clA, clBad]
        = { calls := [], logs := [], sentDelta := 0, fatal := Option.none }
    ∧ sendCLsToPresubmitTest wOk parseRef0 [[clA, clBad], [clB]]
        = sendCLsToPresubmitTest wOk parseRef0 [[clB]]) :=
  ⟨⟨by decide, by decide⟩,
   malformed_ref_discards_batch wOk parseRef0 [clA, clBad] [[clB]] clBad
     (by decide) (by decide)⟩

/-- C5: on the proceed path, every failure returned by
`removeOutdatedBuilds` is logged (they form a prefix of the batch's
log), yet `addPresubmitTestBuild` is still invoked and the batch is
not fatal, however many failures there are. -/
theorem removeOutdated_failures_not_fatal (w : Workflow ε)
    (parse : String → Option (Nat × Nat)) (b : List CL)
    (h1 : (combineCLList parse b).clMap ≠ [])
    (h2 : (combineCLList parse b).skipPresubmitTest = false)
    (h3 : w.listTestsToRun ≠ [])
    (h4 : (combineCLList parse b).hasTrustedOwner = true) :
    ((w.removeOutdatedBuilds (combineCLList parse b).clMap).filterMap id)
        <+: (processOne w parse b).logs
  ∧ Call.addBuild b w.listTestsToRun ∈ (processOne w parse b).calls
  ∧ (processOne w parse b).fatal = Option.none := by
  rw [processOne_proceedPath w parse b h1 h2 h3 h4]
  cases w.addPresubmitTestBuild b w.listTestsToRun <;>
    simp [List.prefix_append]

/-- Witness for C5: `removeOutdatedBuilds` returns two failures; both
are logged and the build is still added. -/
theorem removeOutdated_failures_not_fatal_witness :
    ((combineCLList parseRef0 [clA, clB]).clMap ≠ []
      ∧ (combineCLList parseRef0 [clA, clB]).skipPresubmitTest = false
      ∧ wOk.listTestsToRun ≠ []
      ∧ (combineCLList parseRef0 [clA, clB]).hasTrustedOwner = true
      ∧ (wOk.removeOutdatedBuilds
          (combineCLList parseRef0 [clA, clB]).clMap).filterMap id
          = ["rm1", "rm2"])
  ∧ (((wOk.removeOutdatedBuilds (combineCLList parseRef0 [clA, clB]).clMap).filterMap id)
        <+: (processOne wOk parseRef0 [clA, clB]).logs
    ∧ Call.addBuild [clA, clB] wOk.listTestsToRun
        ∈ (processOne wOk parseRef0 [clA, clB]).calls
    ∧ (processOne wOk parseRef0 [clA, clB]).fatal = Option.none) :=
  ⟨⟨by decide, by decide, by decide, by decide, by decide⟩,
   removeOutdated_failures_not_fatal wOk parseRef0 [clA, clB]
     (by decide) (by decide) (by decide) (by decide)⟩

/-- C6: on the proceed path, an `addPresubmitTestBuild` failure is
logged, no `postResults` call is made for the batch, the dispatched
count is not incremented, the batch is not fatal, and the run
continues to the next batch with the failure not propagated. -/
theorem addBuild_failure_continues (w : Workflow ε)
    (parse : String → Option (Nat × Nat)) (b : List CL)
    (rest : List (List CL)) (e : ε)
    (h1 : (combineCLList parse b).clMap ≠ [])
    (h2 : (combineCLList parse b).skipPresubmitTest = false)
    (h3 : w.listTestsToRun ≠ [])
    (h4 : (combineCLList parse b).hasTrustedOwner = true)
    (h5 : w.addPresubmitTestBuild b w.listTestsToRun = some e) :
    (processOne w parse b).logs
      = (w.removeOutdatedBuilds (combineCLList parse b).clMap).filterMap id
          ++ [e]
  ∧ (processOne w parse b).calls.all (fun c => !(isPostCall c)) = true
  ∧ (processOne w parse b).sentDelta = 0
  ∧ (processOne w parse b).fatal = Option.none
  ∧ (sendCLsToPresubmitTest w parse (b :: rest)).fatal
      = (sendCLsToPresubmitTest w parse rest).fatal
  ∧ (sendCLsToPresubmitTest w parse (b :: rest)).sentDelta
      = (sendCLsToPresubmitTest w parse rest).sentDelta := by
  have hproc : processOne w parse b
      = { calls := [Call.listTests,
                    Call.removeOutdated (combineCLList parse b).clMap,
                    Call.addBuild b w.listTestsToRun],
          logs := (w.removeOutdatedBuilds (combineCLList parse b).clMap).filterMap id
                    ++ [e],
          sentDelta := 0, fatal := Option.none } := by
    rw [processOne_proceedPath w parse b h1 h2 h3 h4]
    simp [h5]
  refine ⟨by rw [hproc], by rw [hproc]; simp [isPostCall],
    by rw [hproc], by rw [hproc], ?_, ?_⟩
  · rw [sendCLsToPresubmitTest_cons_ok w parse b rest (by rw [hproc])]
  · rw [sendCLsToPresubmitTest_cons_ok w parse b rest (by rw [hproc])]
    rw [hproc]
    simp

/-- Witness for C6: a failing `addPresubmitTestBuild` leaves the run's
outcome and dispatched count equal to those of the remaining batch. -/
theorem addBuild_failure_continues_witness :
    ((combineCLList parseRef0 [clA, clB]).clMap ≠ []
      ∧ (combineCLList parseRef0 [clA, clB]).skipPresubmitTest = false
      ∧ wAddFail.listTestsToRun ≠ []
      ∧ (combineCLList parseRef0 [clA, clB]).hasTrustedOwner = true
      ∧ wAddFail.addPresubmitTestBuild [clA, clB] wAddFail.listTestsToRun
          = some "addfail")
  ∧ ((processOne wAddFail parseRef0 [clA, clB]).sentDelta = 0
    ∧ (sendCLsToPresubmitTest wAddFail parseRef0 [[clA, clB], [clB]]).fatal
        = (sendCLsToPresubmitTest wAddFail parseRef0 [[clB]]).fatal) :=
  ⟨⟨by decide, by decide, by decide, by decide, by decide⟩,
   ⟨(addBuild_failure_continues wAddFail parseRef0 [clA, clB] [[clB]] "addfail"
      (by decide) (by decide) (by decide) (by decide) (by decide)).2.2.1,
    (addBuild_failure_continues wAddFail parseRef0 [clA, clB] [[clB]] "addfail"
      (by decide) (by decide) (by decide) (by decide) (by decide)).2.2.2.2.1⟩⟩

/-- C7: a non-empty batch whose members all parse, none requesting
skip, all trusted, with a non-empty test list, is decided proceed;
`addPresubmitTestBuild` is invoked with exactly that batch's members,
and on success the dispatched count grows by the number of members. -/
theorem trusted_group_proceeds (w : Workflow ε)
    (parse : String → Option (Nat × Nat)) (b : List CL)
    (hne : b ≠ [])
    (hp : ∀ r ∈ b, (parse r.reference).isSome)
    (hskip : ∀ r ∈ b, r.presubmitTest ≠ PresubmitTestType.none)
    (htrust : ∀ r ∈ b, isTrustedContributor r.ownerEmail = true)
    (htests : w.listTestsToRun ≠ []) :
    decideGroup (combineCLList parse b) w.listTestsToRun
      = { outcome := Outcome.proceed, message := Option.none,
          verified := Option.none }
  ∧ Call.addBuild b w.listTestsToRun ∈ (processOne w parse b).calls
  ∧ (w.addPresubmitTestBuild b w.listTestsToRun = Option.none →
      (processOne w parse b).sentDelta = b.length) := by
  have h1 := combineCLList_clMap_ne_nil parse b hp hne
  have h2 : (combineCLList parse b).skipPresubmitTest = false := by
    rw [combineCLList_skip parse b hp]
    rw [List.any_eq_false]
    intro r hr
    simpa using hskip r hr
  have h4 : (combineCLList parse b).hasTrustedOwner = true := by
    rw [combineCLList_trusted parse b hp]
    rw [List.all_eq_true]
    intro r hr
    exact htrust r hr
  refine ⟨?_, ?_, ?_⟩
  · simp [decideGroup, List.length_eq_zero, h1, h2, h4, htests]
  · rw [processOne_proceedPath w parse b h1 h2 htests h4]
    simp
  · intro hadd
    rw [processOne_proceedPath w parse b h1 h2 htests h4]
    simp [hadd]

/-- Witness for C7: the trusted two-member batch is sent and the
dispatched count grows by 2. -/
theorem trusted_group_proceeds_witness :
    (([clA, clB] : List CL) ≠ []
      ∧ (∀ r ∈ [clA, clB], (parseRef0 r.reference).isSome)
      ∧ (∀ r ∈ [clA, clB], r.presubmitTest ≠ PresubmitTestType.none)
      ∧ (∀ r ∈ [clA, clB], isTrustedContributor r.ownerEmail = true)
      ∧ wOk.listTestsToRun ≠ []
      ∧ wOk.addPresubmitTestBuild [clA, clB] wOk.listTestsToRun = Option.none)
  ∧ (decideGroup (combineCLList parseRef0 [clA, clB]) wOk.listTestsToRun
      = { outcome := Outcome.proceed, message := Option.none,
          verified := Option.none }
    ∧ Call.addBuild [clA, clB] wOk.listTestsToRun
        ∈ (processOne wOk parseRef0 [clA, clB]).calls
    ∧ (processOne wOk parseRef0 [clA, clB]).sentDelta = 2) :=
  ⟨⟨by decide, by decide, by decide, by decide, by decide, by decide⟩,
   ⟨(trusted_group_proceeds wOk parseRef0 [clA, clB] (by decide) (by decide)
      (by decide) (by decide) (by decide)).1,
    (trusted_group_proceeds wOk parseRef0 [clA, clB] (by decide) (by decide)
      (by decide) (by decide) (by decide)).2.1,
    (trusted_group_proceeds wOk parseRef0 [clA, clB] (by decide) (by decide)
      (by decide) (by decide) (by decide)).2.2 (by decide)⟩⟩

/-- C8: `isTrustedContributor` returns true exactly when the address
ends with the literal case-sensitive suffix "@google.com"; in
particular "a@google.com" is trusted while "a@evil.com" and
"a@GOOGLE.COM" are not. -/
theorem isTrusted_suffix_policy :
    (∀ s : String,
      isTrustedContributor s = true
        ↔ ∃ t : List Char, s.data = t ++ "@google.com".data)
  ∧ isTrustedContributor "a@google.com" = true
  ∧ isTrustedContributor "a@evil.com" = false
  ∧ isTrustedContributor "a@GOOGLE.COM" = false := by
  refine ⟨?_, by decide, by decide, by decide⟩
  intro s
  unfold isTrustedContributor
  rw [List.isSuffixOf_iff_suffix]
  constructor
  · rintro ⟨t, ht⟩
    exact ⟨t, ht.symm⟩
  · rintro ⟨t, ht⟩
    exact ⟨t, ht.symm⟩

/-- C9 (counterexample): in a one-batch run whose single group
requests skip, the dispatcher processes the group (it posts a result,
so the trace is non-empty) yet `listTestsToRun` is never queried — the
query does not happen for every group in the batch run. -/
theorem listTests_not_every_group_cex :
    ((sendCLsToPresubmitTest wOk parseRef0 [[clSkip]]).calls.countP
        isListTestsCall) = 0
  ∧ (sendCLsToPresubmitTest wOk parseRef0 [[clSkip]]).calls
      = [Call.post skipMsg [clSkip.reference] true] := by
  decide

/-- C9 (amended): `listTestsToRun` is queried exactly once per group
whose combined ChangeGroup is non-empty and does not request skip, and
zero times for the other groups; in a run where no `postResults` call
fails, the total number of queries equals the number of such groups —
fresh per group, never cached across groups. -/
theorem listTests_once_per_eligible_group (w : Workflow ε)
    (parse : String → Option (Nat × Nat)) (batches : List (List CL))
    (h : ∀ b ∈ batches, (processOne w parse b).fatal = Option.none) :
    ((sendCLsToPresubmitTest w parse batches).calls.countP isListTestsCall)
      = batches.countP
          (fun b => !((combineCLList parse b).clMap.isEmpty)
                      && !((combineCLList parse b).skipPresubmitTest))
  ∧ (∀ b : List CL,
      ((processOne w parse b).calls.countP isListTestsCall)
        = (if (combineCLList parse b).clMap ≠ []
              ∧ (combineCLList parse b).skipPresubmitTest = false
           then 1 else 0)) :=
  ⟨run_listTests_count w parse batches h,
   processOne_listTests_count w parse⟩

/-- Witness for the amended C9: a run with one eligible group, one
skip-requested group and one malformed group makes exactly one
`listTestsToRun` query. -/
theorem listTests_once_per_eligible_group_witness :
    (∀ b ∈ [[clA, clB], [clSkip], [clBad]],
      (processOne wOk parseRef0 b).fatal = Option.none)
  ∧ ((sendCLsToPresubmitTest wOk parseRef0
        [[clA, clB], [clSkip], [clBad]]).calls.countP isListTestsCall)
      = ([[clA, clB], [clSkip], [clBad]].countP
          (fun b => !((combineCLList parseRef0 b).clMap.isEmpty)
                      && !((combineCLList parseRef0 b).skipPresubmitTest))) :=
  ⟨by decide,
   (listTests_once_per_eligible_group wOk parseRef0
     [[clA, clB], [clSkip], [clBad]] (by decide)).1⟩

/-- C10: a parse failure yields the zero ChangeGroup, whose
`hasTrustedOwner` is false and whose map is empty, while an empty
input list yields `hasTrustedOwner = true`, no skip, and an empty map;
in both cases the dispatcher makes no workflow calls for the batch, so
the differing trust flag is never observable. -/
theorem zero_group_vs_empty_group (w : Workflow ε)
    (parse : String → Option (Nat × Nat)) (records : List CL) (r : CL)
    (hr : r ∈ records) (hp : parse r.reference = Option.none) :
    combineCLList parse records = mpZero
  ∧ mpZero.hasTrustedOwner = false
  ∧ mpZero.clMap = []
  ∧ (combineCLList parse []).hasTrustedOwner = true
  ∧ (combineCLList parse []).skipPresubmitTest = false
  ∧ (combineCLList parse []).clMap = []
  ∧ processOne w parse records
      = { calls := [], logs := [], sentDelta := 0, fatal := Option.none }
  ∧ processOne w parse ([] : List CL)
      = { calls := [], logs := [], sentDelta := 0, fatal := Option.none } := by
  have hz := combineCLList_of_fail parse records r hr hp
  exact ⟨hz, rfl, rfl, rfl, rfl, rfl,
    processOne_of_clMap_nil w parse records (by rw [hz]; rfl),
    processOne_of_clMap_nil w parse [] rfl⟩

/-- Witness for C10: the malformed batch and the empty batch both
produce no workflow calls. -/
theorem zero_group_vs_empty_group_witness :
    (clBad ∈ [clBad] ∧ parseRef0 clBad.reference = Option.none)
  ∧ (combineCLList parseRef0 [clBad] = mpZero
    ∧ mpZero.hasTrustedOwner = false
    ∧ (combineCLList parseRef0 []).hasTrustedOwner = true
    ∧ processOne wOk parseRef0 [clBad]
        = { calls := [], logs := [], sentDelta := 0, fatal := Option.none }
    ∧ processOne wOk parseRef0 ([] : List CL)
        = { calls := [], logs := [], sentDelta := 0, fatal := Option.none }) :=
  ⟨⟨by decide, by decide⟩,
   ⟨(zero_group_vs_empty_group wOk parseRef0 [clBad] clBad (by decide)
      (by decide)).1,
    (zero_group_vs_empty_group wOk parseRef0 [clBad] clBad (by decide)
      (by decide)).2.1,
    (zero_group_vs_empty_group wOk parseRef0 [clBad] clBad (by decide)
      (by decide)).2.2.2.1,
    (zero_group_vs_empty_group wOk parseRef0 [clBad] clBad (by decide)
      (by decide)).2.2.2.2.2.2.1,
    (zero_group_vs_empty_group wOk parseRef0 [clBad] clBad (by decide)
      (by decide)).2.2.2.2.2.2.2⟩⟩

end Presubmit
